import Mathlib

/-!
Verification of the tool layer and chat handler of `app.py`
(VLSI-Design-Assistant).

The tools (`save_code_to_file`, `run_verilog_simulation`,
`generate_circuit_diagram`) and the Flask route `handle_chat` are embedded
shallowly: every external effect (the filesystem, a subprocess invocation,
the graphviz rendering backend, the remote model gateway) is an explicit
input describing its outcome, and each Python function becomes a total Lean
function from its arguments and those outcomes to the structured JSON value
it returns, plus the new external state / the trace of subprocess
invocations it performed.
-/

set_option autoImplicit false

/-- A flat JSON object with string values, the shape of every value
`json.dumps` produces in `app.py` (ordered list of key/value pairs). -/
abbrev JsonObj := List (String × String)

/-- A JSON result is a Failure exactly when it carries an "error" key;
every error path in `app.py` returns such an object. -/
def isFailureResult (j : JsonObj) : Bool :=
  j.any (fun kv => kv.1 == "error")

/-- Outcome of one `subprocess.run(..., capture_output=True, text=True,
check=True, timeout=15)` call: the process completed (with exit code,
captured stdout and stderr; `check=True` raises `CalledProcessError` when
the code is nonzero), raised `TimeoutExpired`, or raised `FileNotFoundError`
because the binary is missing. -/
inductive ProcOutcome where
  | completed (returncode : Int) (stdout : String) (stderr : String)
  | timedOut
  | notFound
deriving DecidableEq, Repr

/-- The environment of one `run_verilog_simulation` call: what each of the
two subprocess steps would do if invoked. -/
structure SimEnv where
  compileStep : ProcOutcome
  runStep : ProcOutcome
deriving DecidableEq, Repr

/-- A record of one subprocess invocation: the argument vector and the
wall-clock timeout (seconds) passed to `subprocess.run`. -/
structure Invocation where
  cmd : List String
  timeoutSecs : Nat
deriving DecidableEq, Repr

/-- The timeout passed to both `subprocess.run` calls in `app.py`. -/
def simTimeout : Nat := 15

/-- `design_files.split()`: Python splits on whitespace and drops empty
pieces. -/
def designList (design_files : String) : List String :=
  ((List.splitOnP Char.isWhitespace design_files.toList).map
    (fun cs => String.mk cs)).filter (fun s => s != "")

/-- The compile invocation built at line 35 of `app.py`. -/
def compileCall (testbench_file design_files : String) : Invocation :=
  ⟨["iverilog", "-o", "simulation_output", testbench_file] ++ designList design_files,
   simTimeout⟩

/-- The run invocation built at line 37 of `app.py`. -/
def runCall : Invocation :=
  ⟨["vvp", "simulation_output"], simTimeout⟩

/-- Message returned from the `except FileNotFoundError` branch. -/
def toolchainMissingMsg : String :=
  "Icarus Verilog not found. Please ensure it is installed and in your system\x27s PATH."

/-- Message returned from the `except subprocess.TimeoutExpired` branch. -/
def timeoutMsg : String :=
  "Simulation timed out. The testbench might have an infinite loop."

/-- `run_verilog_simulation(testbench_file, design_files)` from `app.py`
lines 27-45, over an explicit environment giving each subprocess step its
outcome. Returns the JSON object the Python function returns together with
the list of subprocess invocations actually performed, in order. -/
def run_verilog_simulation (testbench_file design_files : String) (env : SimEnv) :
    JsonObj × List Invocation :=
  let cc := compileCall testbench_file design_files
  match env.compileStep with
  | ProcOutcome.notFound => ([("error", toolchainMissingMsg)], [cc])
  | ProcOutcome.timedOut => ([("error", timeoutMsg)], [cc])
  | ProcOutcome.completed rc _ cerr =>
    if rc != 0 then
      ([("error", "Simulation failed"), ("details", cerr)], [cc])
    else
      match env.runStep with
      | ProcOutcome.notFound => ([("error", toolchainMissingMsg)], [cc, runCall])
      | ProcOutcome.timedOut => ([("error", timeoutMsg)], [cc, runCall])
      | ProcOutcome.completed rrc rout rerr =>
        if rrc != 0 then
          ([("error", "Simulation failed"), ("details", rerr)], [cc, runCall])
        else
          ([("simulation_log", rout)], [cc, runCall])

/-- A step succeeded: the process completed with exit code 0. -/
def stepOk : ProcOutcome → Bool
  | ProcOutcome.completed rc _ _ => rc == 0
  | _ => false

/-- Contents of the process-local filesystem, path to file content. -/
abbrev FileSystem := String → Option String

/-- Outcome of `open(filename, "w")` followed by `f.write(code)`: either it
succeeds, or it raises an exception rendered as the string `e`. -/
inductive FsWriteOutcome where
  | ok
  | raises (e : String)
deriving DecidableEq, Repr

/-- Whether the write raised. -/
def isRaises : FsWriteOutcome → Bool
  | FsWriteOutcome.ok => false
  | FsWriteOutcome.raises _ => true

/-- `save_code_to_file(filename, code)` from `app.py` lines 17-25: writes
`code` to `filename` (mode "w" truncates, so previous content is replaced)
and returns a JSON status object; any exception is caught by the
`except Exception` clause and returned as an error object. -/
def save_code_to_file (filename code : String) (fs : FileSystem)
    (w : FsWriteOutcome) : JsonObj × FileSystem :=
  match w with
  | FsWriteOutcome.raises e => ([("error", e)], fs)
  | FsWriteOutcome.ok =>
    (([("status", "success"),
       ("message", "File \x27" ++ filename ++ "\x27 saved successfully.")]),
     fun p => if p = filename then some code else fs p)

/-- Filesystem state seen by `generate_circuit_diagram`: which directories
exist and the file contents. -/
structure FsState where
  dirs : List String
  files : FileSystem

/-- The graphviz backend as seen by `generate_circuit_diagram`: rendering a
DOT description either produces the PNG bytes or raises an exception
rendered as a string (e.g. the Graphviz binaries are missing or the
description is malformed). -/
abbrev RenderBackend := String → Except String String

/-- Whether the backend call succeeded. -/
def exceptOk : Except String String → Bool
  | Except.ok _ => true
  | Except.error _ => false

/-- `generate_circuit_diagram(dot_description)` from `app.py` lines 47-68:
creates the `static` directory if absent, renders via graphviz
(`Source(..., filename="circuit", format="png", directory="static")`, which
writes the DOT source to `static/circuit` and the image to
`static/circuit.png`), and returns the fixed path; any exception is caught
by the `except Exception` clause and returned as an error object. -/
def generate_circuit_diagram (dot_description : String) (backend : RenderBackend)
    (st : FsState) : JsonObj × FsState :=
  let st1 := if st.dirs.contains "static" then st else { st with dirs := "static" :: st.dirs }
  match backend dot_description with
  | Except.error e =>
    ([("error", "Diagram generation failed. Ensure Graphviz software is installed. Error: " ++ e)],
     st1)
  | Except.ok img =>
    (([("status", "success"), ("image_path", "/static/circuit.png")]),
     { st1 with
       files := fun p =>
         if p = "static/circuit.png" then some img
         else if p = "static/circuit" then some dot_description
         else st1.files p })

/-- Outcome of `Image.open(image_file.stream)` for an uploaded file: the
image decodes, or decoding raises (rendered as a string). -/
inductive ImgOpen where
  | ok (img : String)
  | raises (e : String)
deriving DecidableEq, Repr

/-- An incoming `/chat` POST request: `request.form.get("message")` and
`request.files.get("image")` (with, when a file is present, the outcome of
decoding it). -/
structure ChatRequest where
  message : Option String
  image : Option ImgOpen
deriving DecidableEq, Repr

/-- A Flask response: the `jsonify` body and the HTTP status code. -/
structure ChatResponse where
  body : JsonObj
  status : Nat
deriving DecidableEq, Repr

/-- Python truthiness of `request.form.get("message")`: `None` and the
empty string are falsy. -/
def truthy : Option String → Bool
  | none => false
  | some s => s != ""

/-- `handle_chat` from `app.py` lines 105-127, over the outcome of the
`chat.send_message` call (`Except.ok text` = the gateway returned final
text, `Except.error e` = the call raised `e`). Returns the response
together with a flag recording whether the model gateway was queried
(equivalently, whether a turn was appended to the conversation history). -/
def handle_chat (req : ChatRequest) (gateway : Except String String) :
    ChatResponse × Bool :=
  if !truthy req.message && req.image.isNone then
    (⟨[("error", "No message provided")], 400⟩, false)
  else
    match req.image with
    | some (ImgOpen.raises _) => (⟨[("error", "Invalid image file")], 400⟩, false)
    | _ =>
      match gateway with
      | Except.ok t => (⟨[("reply", t)], 200⟩, true)
      | Except.error _ => (⟨[("error", "An internal error occurred.")], 500⟩, true)

/-- A reply body, as built at line 124 of `app.py`, carries the "reply"
key. -/
def isReplyBody (j : JsonObj) : Bool :=
  j.any (fun kv => kv.1 == "reply")

/-- Claim C1: every tool implementation returns exactly one structured
result for every argument value and every external outcome (it is a total
function into `JsonObj`), and the result is a Failure (carries the "error"
key) exactly when the underlying effect raised: the filesystem write raised,
a subprocess step did not complete with exit code 0, or the render backend
raised. So no exception escapes a tool; each is converted to a Failure
object. -/
theorem tool_failure_discriminant :
    (∀ f c fs w, isFailureResult (save_code_to_file f c fs w).1 = isRaises w) ∧
    (∀ tb df env, isFailureResult (run_verilog_simulation tb df env).1 =
      !(stepOk env.compileStep && stepOk env.runStep)) ∧
    (∀ d b st, isFailureResult (generate_circuit_diagram d b st).1 = !(exceptOk (b d))) := by
  refine ⟨?_, ?_, ?_⟩
  · intro f c fs w
    cases w <;> rfl
  · intro tb df env
    rcases env with ⟨cs, rs⟩
    cases cs <;> cases rs <;>
      simp [run_verilog_simulation, isFailureResult, stepOk] <;>
      split_ifs <;> simp_all
  · intro d b st
    cases h : b d <;> simp [generate_circuit_diagram, isFailureResult, exceptOk, h]

/-- Claim C2: when the compile step exits nonzero, `run_verilog_simulation`
returns the failure produced by the `CalledProcessError` branch carrying the
compile step stderr as its details, and the only subprocess invocation
performed is the compile one: the run step (`vvp`) is never invoked. -/
theorem compile_failure_skips_run (tb df : String) (env : SimEnv)
    (rc : Int) (cout cerr : String)
    (hc : env.compileStep = ProcOutcome.completed rc cout cerr) (hrc : rc ≠ 0) :
    (run_verilog_simulation tb df env).1 =
      [("error", "Simulation failed"), ("details", cerr)] ∧
    (run_verilog_simulation tb df env).2 = [compileCall tb df] ∧
    runCall ∉ (run_verilog_simulation tb df env).2 := by
  simp [run_verilog_simulation, hc, hrc, runCall, compileCall]

/-- Claim C2 witness: a concrete compile failure (exit code 1). -/
theorem compile_failure_skips_run_witness :
    (run_verilog_simulation "tb.v" "d.v"
        ⟨ProcOutcome.completed 1 "" "bad design", ProcOutcome.completed 0 "" ""⟩).1 =
      [("error", "Simulation failed"), ("details", "bad design")] ∧
    (run_verilog_simulation "tb.v" "d.v"
        ⟨ProcOutcome.completed 1 "" "bad design", ProcOutcome.completed 0 "" ""⟩).2 =
      [compileCall "tb.v" "d.v"] ∧
    runCall ∉ (run_verilog_simulation "tb.v" "d.v"
        ⟨ProcOutcome.completed 1 "" "bad design", ProcOutcome.completed 0 "" ""⟩).2 :=
  compile_failure_skips_run "tb.v" "d.v" _ 1 "" "bad design" rfl (by decide)

/-- Claim C3 counterexample: a compile-step failure and a run-step failure
with the same stderr produce the exact same JSON result (both fall into the
single `except subprocess.CalledProcessError` branch, whose error field is
the constant "Simulation failed"), so the two failure kinds are not
distinct. -/
theorem compile_and_run_failures_same_result :
    (run_verilog_simulation "tb.v" "d.v"
        ⟨ProcOutcome.completed 1 "" "oops", ProcOutcome.completed 0 "" ""⟩).1 =
    (run_verilog_simulation "tb.v" "d.v"
        ⟨ProcOutcome.completed 0 "" "", ProcOutcome.completed 1 "" "oops"⟩).1 := by
  decide

/-- Claim C3 amended: both a nonzero exit of the compile step and a nonzero
exit of the run step yield a failure whose error field is the same constant
"Simulation failed", with details equal to the stderr of the failing step;
the code does not distinguish the two kinds. -/
theorem sim_failure_kind_shared (tb df : String) :
    (∀ env rc o e, env.compileStep = ProcOutcome.completed rc o e → rc ≠ 0 →
      (run_verilog_simulation tb df env).1 =
        [("error", "Simulation failed"), ("details", e)]) ∧
    (∀ env rc o e rc2 o2 e2,
      env.compileStep = ProcOutcome.completed rc2 o2 e2 → rc2 = 0 →
      env.runStep = ProcOutcome.completed rc o e → rc ≠ 0 →
      (run_verilog_simulation tb df env).1 =
        [("error", "Simulation failed"), ("details", e)]) := by
  constructor
  · intro env rc o e hc hrc
    simp [run_verilog_simulation, hc, hrc]
  · intro env rc o e rc2 o2 e2 hc hrc2 hr hrc
    simp [run_verilog_simulation, hc, hrc2, hr, hrc]

/-- Claim C3 amended witness: concrete compile-fail and run-fail inputs. -/
theorem sim_failure_kind_shared_witness :
    (run_verilog_simulation "tb.v" "d.v"
        ⟨ProcOutcome.completed 2 "" "ce", ProcOutcome.completed 0 "" ""⟩).1 =
      [("error", "Simulation failed"), ("details", "ce")] ∧
    (run_verilog_simulation "tb.v" "d.v"
        ⟨ProcOutcome.completed 0 "" "", ProcOutcome.completed 3 "" "re"⟩).1 =
      [("error", "Simulation failed"), ("details", "re")] :=
  ⟨(sim_failure_kind_shared "tb.v" "d.v").1 _ 2 "" "ce" rfl (by decide),
   (sim_failure_kind_shared "tb.v" "d.v").2 _ 3 "" "re" 0 "" "" rfl rfl rfl (by decide)⟩

/-- Claim C4: every subprocess invocation performed by
`run_verilog_simulation` carries the fixed 15-second wall-clock timeout, and
a `TimeoutExpired` at either step makes the call return the Timeout failure
object instead of running on. -/
theorem sim_timeout_policy :
    (∀ tb df env inv, inv ∈ (run_verilog_simulation tb df env).2 →
      inv.timeoutSecs = 15) ∧
    (∀ tb df env, env.compileStep = ProcOutcome.timedOut →
      (run_verilog_simulation tb df env).1 = [("error", timeoutMsg)]) ∧
    (∀ tb df env rc o e, env.compileStep = ProcOutcome.completed rc o e → rc = 0 →
      env.runStep = ProcOutcome.timedOut →
      (run_verilog_simulation tb df env).1 = [("error", timeoutMsg)]) := by
  refine ⟨?_, ?_, ?_⟩
  · intro tb df env inv hinv
    rcases env with ⟨cs, rs⟩
    cases cs <;> cases rs <;>
      simp only [run_verilog_simulation] at hinv <;>
      (try split_ifs at hinv) <;>
      simp only [List.mem_cons, List.mem_singleton, List.not_mem_nil, or_false] at hinv <;>
      first
        | (rcases hinv with h | h <;> simp [h, compileCall, runCall, simTimeout])
        | simp [hinv, compileCall, runCall, simTimeout]
  · intro tb df env hc
    simp [run_verilog_simulation, hc]
  · intro tb df env rc o e hc hrc hr
    simp [run_verilog_simulation, hc, hrc, hr]

/-- Claim C4 witness: a timed-out compile step and a timed-out run step at
concrete inputs. -/
theorem sim_timeout_policy_witness :
    (compileCall "tb.v" "d.v").timeoutSecs = 15 ∧
    (run_verilog_simulation "tb.v" "d.v"
        ⟨ProcOutcome.timedOut, ProcOutcome.timedOut⟩).1 = [("error", timeoutMsg)] ∧
    (run_verilog_simulation "tb.v" "d.v"
        ⟨ProcOutcome.completed 0 "" "", ProcOutcome.timedOut⟩).1 =
      [("error", timeoutMsg)] :=
  ⟨sim_timeout_policy.1 "tb.v" "d.v" ⟨ProcOutcome.timedOut, ProcOutcome.timedOut⟩
      (compileCall "tb.v" "d.v") (by decide),
   sim_timeout_policy.2.1 "tb.v" "d.v" _ rfl,
   sim_timeout_policy.2.2 "tb.v" "d.v" _ 0 "" "" rfl rfl rfl⟩

/-- Claim C5: a missing toolchain binary (`FileNotFoundError`) at either
step makes `run_verilog_simulation` return the toolchain-unavailable
failure, and that object differs from every compile-failure object. -/
theorem sim_toolchain_missing :
    (∀ tb df env, env.compileStep = ProcOutcome.notFound →
      (run_verilog_simulation tb df env).1 = [("error", toolchainMissingMsg)]) ∧
    (∀ tb df env rc o e, env.compileStep = ProcOutcome.completed rc o e → rc = 0 →
      env.runStep = ProcOutcome.notFound →
      (run_verilog_simulation tb df env).1 = [("error", toolchainMissingMsg)]) ∧
    (∀ d, ([("error", toolchainMissingMsg)] : JsonObj) ≠
      [("error", "Simulation failed"), ("details", d)]) := by
  refine ⟨?_, ?_, ?_⟩
  · intro tb df env hc
    simp [run_verilog_simulation, hc]
  · intro tb df env rc o e hc hrc hr
    simp [run_verilog_simulation, hc, hrc, hr]
  · intro d
    simp

/-- Claim C5 witness: missing binaries at concrete inputs. -/
theorem sim_toolchain_missing_witness :
    (run_verilog_simulation "tb.v" "d.v"
        ⟨ProcOutcome.notFound, ProcOutcome.notFound⟩).1 =
      [("error", toolchainMissingMsg)] ∧
    (run_verilog_simulation "tb.v" "d.v"
        ⟨ProcOutcome.completed 0 "" "", ProcOutcome.notFound⟩).1 =
      [("error", toolchainMissingMsg)] ∧
    ([("error", toolchainMissingMsg)] : JsonObj) ≠
      [("error", "Simulation failed"), ("details", "ce")] :=
  ⟨sim_toolchain_missing.1 "tb.v" "d.v" _ rfl,
   sim_toolchain_missing.2.1 "tb.v" "d.v" _ 0 "" "" rfl rfl rfl,
   sim_toolchain_missing.2.2 "ce"⟩

/-- Claim C6: round-trip of the file-write tool. For every filename `F`,
content `C` and prior filesystem, a successful `save_code_to_file(F, C)`
leaves the file at `F` containing exactly `C` (any previous content is
overwritten), leaves every other path untouched, and reports success. -/
theorem save_roundtrip (f c : String) (fs : FileSystem) :
    (save_code_to_file f c fs FsWriteOutcome.ok).2 f = some c ∧
    (∀ p, p ≠ f → (save_code_to_file f c fs FsWriteOutcome.ok).2 p = fs p) ∧
    (save_code_to_file f c fs FsWriteOutcome.ok).1 =
      [("status", "success"),
       ("message", "File \x27" ++ f ++ "\x27 saved successfully.")] := by
  refine ⟨?_, ?_, rfl⟩
  · simp [save_code_to_file]
  · intro p hp
    simp [save_code_to_file, hp]

/-- Claim C6 witness: overwriting an existing file with new content. -/
theorem save_roundtrip_witness :
    (save_code_to_file "adder.v" "module adder;"
        (fun _ => some "old content") FsWriteOutcome.ok).2 "adder.v" =
      some "module adder;" ∧
    (save_code_to_file "adder.v" "module adder;"
        (fun _ => some "old content") FsWriteOutcome.ok).2 "tb.v" =
      some "old content" :=
  ⟨(save_roundtrip "adder.v" "module adder;" (fun _ => some "old content")).1,
   (save_roundtrip "adder.v" "module adder;" (fun _ => some "old content")).2.1
      "tb.v" (by decide)⟩

/-- Claim C7: idempotence of the render tool. If the backend renders the
description `d` to an image, then two successive calls of
`generate_circuit_diagram d` both succeed and both return the same fixed
path "/static/circuit.png"; the second call overwrites the already-existing
file and does not fail on the already-existing `static` directory (the
directory set is unchanged by the second call). -/
theorem render_idempotent (d : String) (backend : RenderBackend) (st : FsState)
    (img : String) (h : backend d = Except.ok img) :
    (generate_circuit_diagram d backend st).1 =
      [("status", "success"), ("image_path", "/static/circuit.png")] ∧
    (generate_circuit_diagram d backend
        (generate_circuit_diagram d backend st).2).1 =
      [("status", "success"), ("image_path", "/static/circuit.png")] ∧
    (generate_circuit_diagram d backend st).2.files "static/circuit.png" =
      some img ∧
    (generate_circuit_diagram d backend
        (generate_circuit_diagram d backend st).2).2.files "static/circuit.png" =
      some img ∧
    (generate_circuit_diagram d backend st).2.dirs.contains "static" = true ∧
    (generate_circuit_diagram d backend
        (generate_circuit_diagram d backend st).2).2.dirs =
      (generate_circuit_diagram d backend st).2.dirs := by
  refine ⟨?_, ?_, ?_, ?_, ?_, ?_⟩ <;>
    simp [generate_circuit_diagram, h] <;>
    split_ifs <;>
    simp_all [List.contains, List.elem_eq_mem]

/-- Claim C7 witness: two renders of a concrete DOT description starting
from an empty filesystem. -/
theorem render_idempotent_witness :
    (generate_circuit_diagram "digraph G" (fun _ => Except.ok "PNG")
        ⟨[], fun _ => none⟩).1 =
      [("status", "success"), ("image_path", "/static/circuit.png")] ∧
    (generate_circuit_diagram "digraph G" (fun _ => Except.ok "PNG")
        (generate_circuit_diagram "digraph G" (fun _ => Except.ok "PNG")
          ⟨[], fun _ => none⟩).2).1 =
      [("status", "success"), ("image_path", "/static/circuit.png")] :=
  ⟨(render_idempotent "digraph G" (fun _ => Except.ok "PNG")
      ⟨[], fun _ => none⟩ "PNG" rfl).1,
   (render_idempotent "digraph G" (fun _ => Except.ok "PNG")
      ⟨[], fun _ => none⟩ "PNG" rfl).2.1⟩

/-- Claim C8: when both subprocess steps complete with exit code 0, the
call returns the success object whose log is exactly the captured stdout of
the run step, independent of the compile step stdout. -/
theorem sim_success_log (tb df : String) (env : SimEnv)
    (cout cerr rout rerr : String)
    (hc : env.compileStep = ProcOutcome.completed 0 cout cerr)
    (hr : env.runStep = ProcOutcome.completed 0 rout rerr) :
    (run_verilog_simulation tb df env).1 = [("simulation_log", rout)] := by
  simp [run_verilog_simulation, hc, hr]

/-- Claim C8 witness: a concrete fully successful simulation whose compile
stdout differs from its run stdout. -/
theorem sim_success_log_witness :
    (run_verilog_simulation "tb.v" "d.v"
        ⟨ProcOutcome.completed 0 "compile chatter" "",
         ProcOutcome.completed 0 "TEST PASSED" ""⟩).1 =
      [("simulation_log", "TEST PASSED")] :=
  sim_success_log "tb.v" "d.v" _ "compile chatter" "" "TEST PASSED" "" rfl rfl

/-- Claim C9 counterexample: the request with no message and no image
receives the validation response "No message provided" with status 400 —
a third kind of user-visible message that is neither a model reply body nor
the generic internal-error body, so not every caller request receives only
the model text or the generic internal-error message. -/
theorem empty_request_third_message :
    (handle_chat ⟨none, none⟩ (Except.ok "hello")).1 =
      ⟨[("error", "No message provided")], 400⟩ ∧
    isReplyBody (handle_chat ⟨none, none⟩ (Except.ok "hello")).1.body = false ∧
    (handle_chat ⟨none, none⟩ (Except.ok "hello")).1.body ≠
      [("error", "An internal error occurred.")] := by
  decide

/-- Claim C9 amended: every response of `handle_chat` is one of the two
fixed 400 validation responses, a reply carrying exactly the model text, or
the fixed generic internal-error response with status 500; and when the
model-gateway call raises, the response does not depend on the raised
exception, so its detail is never exposed to the caller. -/
theorem user_visible_responses (req : ChatRequest) (g : Except String String) :
    ((handle_chat req g).1 = ⟨[("error", "No message provided")], 400⟩ ∨
     (handle_chat req g).1 = ⟨[("error", "Invalid image file")], 400⟩ ∨
     (∃ t, g = Except.ok t ∧ (handle_chat req g).1 = ⟨[("reply", t)], 200⟩) ∨
     (∃ e, g = Except.error e ∧
       (handle_chat req g).1 = ⟨[("error", "An internal error occurred.")], 500⟩)) ∧
    (∀ e1 e2, handle_chat req (Except.error e1) = handle_chat req (Except.error e2)) := by
  constructor
  · rcases req with ⟨m, i⟩
    rcases i with _ | io
    · cases hm : truthy m <;> cases g <;> simp [handle_chat, hm]
    · cases io <;> cases hm : truthy m <;> cases g <;> simp [handle_chat, hm]
  · intro e1 e2
    rcases req with ⟨m, i⟩
    rcases i with _ | io
    · cases hm : truthy m <;> simp [handle_chat, hm]
    · cases io <;> cases hm : truthy m <;> simp [handle_chat, hm]

/-- Claim C10: a request with neither a text message nor an image file is
answered with the "No message provided" error and HTTP status 400, and the
model gateway is never queried (no turn is appended to the session
history), whatever the gateway would have answered. -/
theorem no_message_short_circuits (g : Except String String) :
    handle_chat ⟨none, none⟩ g =
      (⟨[("error", "No message provided")], 400⟩, false) := by
  rfl
